import Mathlib

/-!
Verification of the waveform acquisition and decoding pipeline of
`miniseed_parser.py` (class `MiniSeedParser`, method `fetch_waveform_data`,
lines 30-190) together with the signal statistics it computes (lines 133-135).

Shallow embedding conventions:

* The method's interactions with external libraries are passed in as oracle
  outcomes: `ParseOutcome` is what `obspy.UTCDateTime(text)` did (returned an
  instant, or raised), `NetOutcome` is what `requests.get` did (returned a
  response with a status code and a byte body, raised `Timeout`, or raised a
  `RequestException`), and `DecodeOutcome` is what `obspy.read` did on the body
  (returned a stream of traces, or raised).  The function under verification is
  the control flow of `fetch_waveform_data` over these outcomes, which is
  exactly the Python code between the `try` at line 47 and the `except`
  handlers at lines 167-190.
* Instants are modelled as rationals (ObsPy timestamps are real-valued seconds),
  byte bodies as `List Nat`, sample arrays as `List Int`.
* `trace.data` is a NumPy `int32` array for the integer miniSEED encodings, so
  the element-wise NumPy operations `np.abs` and `**2` used at lines 134-135
  wrap modulo 2^32 into the signed 32-bit range; `wrap32`, `abs32` and `sq32`
  model this.  `np.mean` converts to `float64` before accumulating, modelled
  exactly over ℚ; the final `np.sqrt` is kept at the radicand level (ℚ), since
  `Real.sqrt` is injective on nonnegative arguments.
* The record returned by the Python function is a dict; `WaveformResult`
  mirrors its two shapes (the `success: True` shape of lines 140-162 and the
  `success: False` shape used by every error return).
-/

/-- A signed 32-bit wraparound: the representative of `x` modulo `2^32` lying in
`[-2^31, 2^31)`.  This is what NumPy `int32` arithmetic produces. -/
def wrap32 (x : Int) : Int := (x + 2^31) % 2^32 - 2^31

/-- NumPy `np.abs` on an `int32` value: the mathematical absolute value wrapped
back into `int32` (so `abs32 (-2^31) = -2^31`). -/
def abs32 (x : Int) : Int := wrap32 |x|

/-- NumPy `**2` on an `int32` value: the mathematical square wrapped back into
`int32` (so `sq32 65536 = 0` and `sq32 46341 < 0`). -/
def sq32 (x : Int) : Int := wrap32 (x * x)

/-- `np.max(np.abs(data))` over a nonempty `int32` array (line 134); the `[]`
case is unreachable in the code, which guards with `len(samples) > 0`. -/
def npMaxAbs : List Int → Int
  | [] => 0
  | x :: xs => xs.foldl (fun acc y => max acc (abs32 y)) (abs32 x)

/-- Line 134: `peak_amplitude = float(np.max(np.abs(trace.data))) if len(samples) > 0 else 0.0`.
The `float` conversion of an `int32` is exact, so the value is kept as `Int`. -/
def peak_code (samples : List Int) : Int :=
  if samples.length > 0 then npMaxAbs samples else 0

/-- `np.mean(trace.data**2)` (line 135): the squares are computed element-wise
in `int32` (wrapping), then `np.mean` averages them in floating point,
modelled exactly over ℚ. -/
def npMeanSq (samples : List Int) : ℚ :=
  (samples.map fun x => ((sq32 x : Int) : ℚ)).sum / (samples.length : ℚ)

/-- Line 135: the radicand of
`rms_amplitude = float(np.sqrt(np.mean(trace.data**2))) if len(samples) > 0 else 0.0`.
The code stores the square root of this quantity (`NaN` when it is negative,
which `sq32` wraparound can produce). -/
def rmsSq_code (samples : List Int) : ℚ :=
  if samples.length > 0 then npMeanSq samples else 0

/-- Modelled from the spec: "peak amplitude = max of absolute values" (§4.4),
with the empty sequence defined as 0.0, using exact integer arithmetic. -/
def specPeak : List Int → Int
  | [] => 0
  | x :: xs => xs.foldl (fun acc y => max acc |y|) |x|

/-- Modelled from the spec: the radicand of "RMS amplitude = square root of the
mean of squared values" (§4.4), with exact (unwrapped) squares. -/
def specMeanSq (samples : List Int) : ℚ :=
  (samples.map fun x : Int => ((x : ℚ))^2).sum / (samples.length : ℚ)

/-- The identity and quality arguments of `fetch_waveform_data` (line 30). -/
structure FetchArgs where
  network : String
  station : String
  location : String
  channel : String
  quality : String
deriving DecidableEq, Repr

/-- Outcome of `UTCDateTime(text)` (lines 49-50): an instant, or an exception
with message `msg` (caught by the generic handler at line 183). -/
inductive ParseOutcome where
  | ok (t : ℚ)
  | raises (msg : String)
deriving DecidableEq, Repr

/-- Outcome of `requests.get` (lines 68-73): a response, a
`requests.exceptions.Timeout`, or another `requests.exceptions.RequestException`. -/
inductive NetOutcome where
  | resp (status : Nat) (content : List Nat)
  | timeout
  | netError (msg : String)
deriving DecidableEq, Repr

/-- One decoded `obspy` trace: the `trace.stats` fields read at lines 138-161
plus the sample array `trace.data`.  `calib = none` models a `stats` object
without a `calib` attribute (line 157), `hasResponse` the `hasattr` check of
line 160. -/
structure Trace where
  network : String
  station : String
  location : String
  channel : String
  starttime : ℚ
  endtime : ℚ
  samplingRate : ℚ
  npts : Nat
  calib : Option ℚ
  delta : ℚ
  processing : List String
  hasResponse : Bool
  data : List Int
deriving DecidableEq, Repr

/-- Outcome of `read(mseed_data, format='MSEED')` (line 116): a stream of
traces, or an exception with message `msg` (caught at line 183). -/
inductive DecodeOutcome where
  | traces (ts : List Trace)
  | raises (msg : String)
deriving DecidableEq, Repr

/-- The `metadata` sub-dict of a successful result (lines 156-161). -/
structure Metadata where
  calib : ℚ
  delta : ℚ
  processing : List String
  instrumentResponse : String
deriving DecidableEq, Repr

/-- The dict returned by `fetch_waveform_data`: either the `success: True`
shape of lines 140-162 (`rmsSq` is the radicand whose square root the code
stores), or the `success: False` shape `{success, error, message, samples,
metadata}` used by all eight error returns. -/
inductive WaveformResult where
  | ok (network station location channel : String)
       (starttime endtime samplingRate : ℚ) (npts : Nat) (duration : ℚ)
       (samples : List Int) (peak : Int) (rmsSq : ℚ)
       (quality format : String) (metadata : Metadata)
  | fail (error message : String) (samples : List Int)
         (metadata : List (String × String))
deriving DecidableEq, Repr

/-- The `success` key of the result dict. -/
def WaveformResult.isSuccess : WaveformResult → Bool
  | .ok .. => true
  | .fail .. => false

/-- The `error` key of the result dict (absent on success). -/
def WaveformResult.errKind : WaveformResult → Option String
  | .ok .. => none
  | .fail e _ _ _ => some e

/-- The `message` key of the result dict (absent on success). -/
def WaveformResult.errMsg : WaveformResult → Option String
  | .ok .. => none
  | .fail _ m _ _ => some m

/-- The `samples` key of the result dict. -/
def WaveformResult.samplesOut : WaveformResult → List Int
  | .ok _ _ _ _ _ _ _ _ _ s _ _ _ _ _ => s
  | .fail _ _ s _ => s

/-- The `peak_amplitude` key of the result dict (absent on failure). -/
def WaveformResult.peakOut : WaveformResult → Option Int
  | .ok _ _ _ _ _ _ _ _ _ _ p _ _ _ _ => some p
  | .fail .. => none

/-- The radicand of the `rms_amplitude` key of the result dict (absent on
failure). -/
def WaveformResult.rmsSqOut : WaveformResult → Option ℚ
  | .ok _ _ _ _ _ _ _ _ _ _ _ r _ _ _ => some r
  | .fail .. => none

/-- The `{network}.{station}.{location}.{channel}` interpolation used by the
messages at lines 79 and 87. -/
def chanStr (a : FetchArgs) : String :=
  a.network ++ "." ++ a.station ++ "." ++ a.location ++ "." ++ a.channel

/-- Line 79: the message of the 404 branch. -/
def msg404 (a : FetchArgs) : String :=
  "No waveform data available for " ++ chanStr a

/-- Line 87: the message of the 204 branch. -/
def msg204 (a : FetchArgs) : String :=
  "No content returned for " ++
    (chanStr a ++ " - station may be offline or no data exists for time period")

/-- The error dict built by the generic exception handler at lines 183-190. -/
def parseFail (m : String) : WaveformResult :=
  .fail "parsing-error" ("Error parsing miniSEED data: " ++ m) [] []

/-- Lines 140-162: the `success: True` dict assembled from the first trace. -/
def assemble (a : FetchArgs) (t : Trace) : WaveformResult :=
  .ok t.network t.station (if t.location = "" then "--" else t.location)
     t.channel t.starttime t.endtime t.samplingRate t.npts
     (t.endtime - t.starttime) t.data (peak_code t.data) (rmsSq_code t.data)
     a.quality "real-miniseed"
     ⟨t.calib.getD 1, t.delta, t.processing,
      if t.hasResponse then "available" else "not-available"⟩

/-- Lines 75-162: classification of an HTTP response, given the decode outcome
for its body.  First component: whether `read` (the decoder) was invoked. -/
def classify_response (a : FetchArgs) (status : Nat) (content : List Nat)
    (dec : DecodeOutcome) : Bool × WaveformResult :=
  if status == 404 then
    (false, .fail "no-data-available" (msg404 a) [] [])
  else if status == 204 then
    (false, .fail "no-data-available" (msg204 a) [] [])
  else if status != 200 then
    (false, .fail ("http-" ++ toString status)
      ("FDSN service returned status " ++ toString status) [] [])
  else if content.length == 0 then
    (false, .fail "empty-response" "Empty response from FDSN service" [] [])
  else
    match dec with
    | .raises m => (true, parseFail m)
    | .traces [] =>
      (true, .fail "no-traces" "No traces found in miniSEED data" [] [])
    | .traces (t :: _) => (true, assemble a t)

/-- Lines 68-190 after both timestamps parsed: the network request is made
(so `requested = true` for every branch), and its outcome is classified;
`requests` exceptions are caught at lines 167-182. -/
def afterRequest (a : FetchArgs) (net : NetOutcome) (dec : DecodeOutcome) :
    Bool × WaveformResult :=
  match net with
  | .timeout => (false, .fail "timeout" "Request to FDSN service timed out" [] [])
  | .netError m => (false, .fail "network-error" ("Network error: " ++ m) [] [])
  | .resp status content => classify_response a status content dec

/-- Result of a `fetch_waveform_data` call: whether `requests.get` was reached,
whether `read` (the miniSEED decoder) was reached, and the returned dict. -/
structure FetchOutcome where
  requested : Bool
  decoded : Bool
  result : WaveformResult
deriving DecidableEq, Repr

/-- Lines 47-190: the whole method.  `ps`/`pe` are the outcomes of
`UTCDateTime(start_time)` / `UTCDateTime(end_time)` (lines 49-50; a raise
skips the network call and lands in the handler at line 183), `net` the
outcome of `requests.get`, `dec` the outcome of `read` on the body. -/
def fetch_waveform_data (a : FetchArgs) (ps pe : ParseOutcome)
    (net : NetOutcome) (dec : DecodeOutcome) : FetchOutcome :=
  match ps with
  | .raises m => ⟨false, false, parseFail m⟩
  | .ok _ =>
    match pe with
    | .raises m => ⟨false, false, parseFail m⟩
    | .ok _ =>
      let r := afterRequest a net dec
      ⟨true, r.1, r.2⟩

/-! ## Helper lemmas -/

theorem wrap32_eq_self (x : Int) (h1 : -2^31 ≤ x) (h2 : x < 2^31) :
    wrap32 x = x := by
  unfold wrap32
  have h0 : (0 : Int) ≤ x + 2^31 := by linarith
  have h3 : x + 2^31 < 2^32 := by linarith
  rw [Int.emod_eq_of_lt h0 h3]
  ring

theorem abs32_eq_abs (x : Int) (h : |x| < 2^31) : abs32 x = |x| := by
  unfold abs32
  exact wrap32_eq_self _ (by have := abs_nonneg x; linarith) h

theorem sq32_eq_sq (x : Int) (h : |x| ≤ 46340) : sq32 x = x * x := by
  unfold sq32
  have hsq : x * x ≤ 46340 * 46340 := by
    calc x * x = |x| * |x| := (abs_mul_abs_self x).symm
    _ ≤ 46340 * 46340 := by
        exact mul_le_mul h h (abs_nonneg x) (by norm_num)
  exact wrap32_eq_self _ (by nlinarith [mul_self_nonneg x]) (by linarith)

theorem foldl_maxAbs_eq (xs : List Int) (h : ∀ x ∈ xs, |x| < 2^31) (a : Int) :
    xs.foldl (fun acc y => max acc (abs32 y)) a
      = xs.foldl (fun acc y => max acc |y|) a := by
  induction xs generalizing a with
  | nil => rfl
  | cons y ys ih =>
    simp only [List.foldl_cons]
    rw [abs32_eq_abs y (h y (by simp))]
    exact ih (fun x hx => h x (by simp [hx])) _

theorem peak_code_eq_specPeak (l : List Int) (h : ∀ x ∈ l, |x| < 2^31) :
    peak_code l = specPeak l := by
  cases l with
  | nil => rfl
  | cons x xs =>
    simp only [peak_code, npMaxAbs, specPeak, List.length_cons,
      Nat.succ_pos, if_pos]
    rw [abs32_eq_abs x (h x (by simp))]
    exact foldl_maxAbs_eq xs (fun y hy => h y (by simp [hy])) _

theorem rmsSq_code_eq_specMeanSq (l : List Int) (h : ∀ x ∈ l, |x| ≤ 46340) :
    rmsSq_code l = specMeanSq l := by
  have hmap : l.map (fun x => ((sq32 x : Int) : ℚ))
      = l.map (fun x : Int => ((x : ℚ))^2) := by
    apply List.map_congr_left
    intro y hy
    rw [sq32_eq_sq y (h y hy)]
    push_cast
    ring
  cases l with
  | nil => simp [rmsSq_code, specMeanSq]
  | cons x xs =>
    simp only [rmsSq_code, npMeanSq, specMeanSq, List.length_cons,
      Nat.succ_pos, if_pos]
    rw [hmap]

theorem httpKind_ne (s t : String) (h : t.data.head? ≠ some 'h') :
    "http-" ++ s ≠ t := by
  intro he
  apply h
  rw [← he]
  rfl

theorem msg404_ne_msg204 (a a' : FetchArgs) : msg404 a ≠ msg204 a' := by
  intro he
  have h4 : (msg404 a).data[3]? = some 'w' := rfl
  rw [he] at h4
  have h2 : (msg204 a').data[3]? = some 'c' := rfl
  rw [h4] at h2
  exact absurd h2 (by decide)

theorem fail_shape_aux {k m : String} {s : List Int}
    {md : List (String × String)} {e msg : String}
    (h : WaveformResult.fail e msg [] [] = .fail k m s md) :
    s = [] ∧ md = [] := by
  injection h with h1 h2 h3 h4
  exact ⟨h3.symm, h4.symm⟩

/-! ## Claim theorems -/

/-- C1 (counterexample): the pipeline performs no pre-network validation.  For
the query with every channel identity field empty and an inverted time window
(start instant 100, end instant 50, so end ≤ start), the network request IS
made and the call even succeeds — it does not fail with `InvalidTimeRange` or
`InvalidIdentity` before the network call, refuting the claim as stated. -/
theorem C1_counterexample :
    (fetch_waveform_data ⟨"", "", "", "", "B"⟩ (.ok 100) (.ok 50) (.resp 200 [7])
      (.traces [⟨"IU", "ANMO", "00", "BHZ", 0, 10, 20, 4, some 1, 1/20, [], false,
        [1, -5, 3, -2]⟩])).requested = true ∧
    (fetch_waveform_data ⟨"", "", "", "", "B"⟩ (.ok 100) (.ok 50) (.resp 200 [7])
      (.traces [⟨"IU", "ANMO", "00", "BHZ", 0, 10, 20, 4, some 1, 1/20, [], false,
        [1, -5, 3, -2]⟩])).result.isSuccess = true ∧
    (50 : ℚ) ≤ 100 :=
  ⟨rfl, by decide, by norm_num⟩

/-- C1 (amended): `fetch_waveform_data` has no `InvalidTimeRange` or
`InvalidIdentity` validation at all.  Whenever both timestamps parse, the
network request is issued, regardless of the window order or of empty identity
fields; and no result of the pipeline ever carries error kind
`InvalidTimeRange` or `InvalidIdentity`. -/
theorem C1_amended :
    (∀ (a : FetchArgs) (s e : ℚ) (net : NetOutcome) (dec : DecodeOutcome),
      (fetch_waveform_data a (.ok s) (.ok e) net dec).requested = true) ∧
    (∀ (a : FetchArgs) (ps pe : ParseOutcome) (net : NetOutcome)
       (dec : DecodeOutcome) (k : String),
      (fetch_waveform_data a ps pe net dec).result.errKind = some k →
      k ≠ "InvalidTimeRange" ∧ k ≠ "InvalidIdentity") := by
  constructor
  · intro a s e net dec
    rfl
  · intro a ps pe net dec k h
    cases ps with
    | raises m =>
      simp only [fetch_waveform_data, parseFail, WaveformResult.errKind,
        Option.some.injEq] at h
      subst h
      exact ⟨by decide, by decide⟩
    | ok s =>
      cases pe with
      | raises m =>
        simp only [fetch_waveform_data, parseFail, WaveformResult.errKind,
          Option.some.injEq] at h
        subst h
        exact ⟨by decide, by decide⟩
      | ok e =>
        cases net with
        | timeout =>
          simp only [fetch_waveform_data, afterRequest,
            WaveformResult.errKind, Option.some.injEq] at h
          subst h
          exact ⟨by decide, by decide⟩
        | netError m =>
          simp only [fetch_waveform_data, afterRequest,
            WaveformResult.errKind, Option.some.injEq] at h
          subst h
          exact ⟨by decide, by decide⟩
        | resp status content =>
          simp only [fetch_waveform_data, afterRequest] at h
          unfold classify_response at h
          repeat' split at h
          all_goals simp only [parseFail, assemble, WaveformResult.errKind,
            Option.some.injEq] at h
          all_goals try exact Option.noConfusion h
          all_goals subst h
          all_goals constructor <;>
            first
            | decide
            | exact httpKind_ne _ _ (by decide)

/-- C1 (witness): the amended theorem applied at a concrete failing call — a
`timeout` outcome — whose error kind is indeed neither `InvalidTimeRange` nor
`InvalidIdentity`. -/
theorem C1_witness :
    "timeout" ≠ "InvalidTimeRange" ∧ "timeout" ≠ "InvalidIdentity" :=
  C1_amended.2 ⟨"IU", "ANMO", "00", "BHZ", "B"⟩ (.ok 0) (.ok 1) .timeout
    (.traces []) "timeout" rfl

/-- C2: evaluation of the RMS radicand at the failing input.  The code squares
the samples in the `int32` dtype of `trace.data` BEFORE `np.mean` converts to
floating point, so for the single int32 sample 65536 the square wraps to 0 and
the computed RMS is 0.0, while the exact mean of squares is 2^32 (RMS 65536);
for the sample 46341 the wrapped square is even negative, so `np.sqrt`
produces NaN.  This refutes "no intermediate integer overflow occurs". -/
theorem C2_int32_overflow :
    rmsSq_code [(65536 : Int)] = 0 ∧
    specMeanSq [(65536 : Int)] = 4294967296 ∧
    sq32 46341 < 0 := by
  refine ⟨?_, ?_, by decide⟩
  · norm_num [rmsSq_code, npMeanSq, sq32, wrap32]
  · norm_num [specMeanSq]

/-- C3 (counterexample): the computed peak amplitude is NOT always the maximum
of the absolute values.  For the single int32 sample -2^31, `np.abs` wraps and
the code computes peak -2147483648, not the true maximum absolute value
2147483648. -/
theorem C3_counterexample :
    peak_code [(-2147483648 : Int)] ≠ specPeak [(-2147483648 : Int)] := by
  decide

/-- C3 (amended): as long as the int32 operations do not overflow, the
statistics are exact — the peak equals the maximum of absolute values whenever
every |sample| < 2^31, and the RMS radicand equals the exact mean of squares
(hence the RMS equals the exact square root of the mean of squares) whenever
every |sample| ≤ 46340; in particular for [1, -5, 3, -2] the peak is 5.0 and
the RMS is sqrt(9.75). -/
theorem C3_amended (l : List Int) :
    ((∀ x ∈ l, |x| < 2^31) → peak_code l = specPeak l) ∧
    ((∀ x ∈ l, |x| ≤ 46340) →
      rmsSq_code l = specMeanSq l ∧
      Real.sqrt ((rmsSq_code l : ℚ) : ℝ) = Real.sqrt ((specMeanSq l : ℚ) : ℝ)) ∧
    peak_code [1, -5, 3, -2] = 5 ∧
    rmsSq_code [1, -5, 3, -2] = 39/4 := by
  refine ⟨peak_code_eq_specPeak l, fun h => ?_, by decide, ?_⟩
  · have he := rmsSq_code_eq_specMeanSq l h
    exact ⟨he, by rw [he]⟩
  · norm_num [rmsSq_code, npMeanSq, sq32, wrap32]

/-- C3 (witness): the amended theorem applied at the sample sequence
[1, -5, 3, -2], with both no-overflow hypotheses discharged by computation. -/
theorem C3_witness :
    peak_code [1, -5, 3, -2] = specPeak [1, -5, 3, -2] ∧
    rmsSq_code [1, -5, 3, -2] = specMeanSq [1, -5, 3, -2] :=
  ⟨(C3_amended [1, -5, 3, -2]).1 (by decide),
   ((C3_amended [1, -5, 3, -2]).2.1 (by decide)).1⟩

/-- C4: the empty sample sequence yields peak amplitude 0.0 and RMS amplitude
0.0 (lines 134-135), and a pipeline run whose first decoded trace has zero
samples returns a `success: True` record carrying those zeros. -/
theorem C4_empty_samples :
    (peak_code [] = 0 ∧ rmsSq_code [] = 0) ∧
    ∀ (a : FetchArgs) (s e : ℚ) (c : List Nat), c.length ≠ 0 →
      ∀ (t : Trace) (rest : List Trace), t.data = [] →
        (fetch_waveform_data a (.ok s) (.ok e) (.resp 200 c)
          (.traces (t :: rest))).result.isSuccess = true ∧
        (fetch_waveform_data a (.ok s) (.ok e) (.resp 200 c)
          (.traces (t :: rest))).result.peakOut = some 0 ∧
        (fetch_waveform_data a (.ok s) (.ok e) (.resp 200 c)
          (.traces (t :: rest))).result.rmsSqOut = some 0 := by
  refine ⟨⟨rfl, rfl⟩, ?_⟩
  intro a s e c hc t rest ht
  simp [fetch_waveform_data, afterRequest, classify_response, assemble, hc,
    WaveformResult.isSuccess, WaveformResult.peakOut, WaveformResult.rmsSqOut,
    ht, peak_code, rmsSq_code]

/-- C4 (witness): the theorem applied to a concrete run with a one-byte body
decoding to a single trace with an empty sample array. -/
theorem C4_witness :
    (fetch_waveform_data ⟨"IU", "ANMO", "00", "BHZ", "B"⟩ (.ok 0) (.ok 1)
      (.resp 200 [1])
      (.traces [⟨"IU", "ANMO", "00", "BHZ", 0, 10, 20, 0, some 1, 1/20, [],
        false, []⟩])).result.isSuccess = true ∧
    (fetch_waveform_data ⟨"IU", "ANMO", "00", "BHZ", "B"⟩ (.ok 0) (.ok 1)
      (.resp 200 [1])
      (.traces [⟨"IU", "ANMO", "00", "BHZ", 0, 10, 20, 0, some 1, 1/20, [],
        false, []⟩])).result.peakOut = some 0 ∧
    (fetch_waveform_data ⟨"IU", "ANMO", "00", "BHZ", "B"⟩ (.ok 0) (.ok 1)
      (.resp 200 [1])
      (.traces [⟨"IU", "ANMO", "00", "BHZ", 0, 10, 20, 0, some 1, 1/20, [],
        false, []⟩])).result.rmsSqOut = some 0 :=
  C4_empty_samples.2 ⟨"IU", "ANMO", "00", "BHZ", "B"⟩ 0 1 [1] (by decide)
    ⟨"IU", "ANMO", "00", "BHZ", 0, 10, 20, 0, some 1, 1/20, [], false, []⟩
    [] rfl

/-- C5: a 404 response and a 204 response both produce a failure of kind
`no-data-available` (lines 75-90), and their messages are distinct — the 204
message (line 87) is the one noting the station may be offline. -/
theorem C5_no_data_kinds (a : FetchArgs) (s e : ℚ) (c c' : List Nat)
    (dec dec' : DecodeOutcome) :
    (fetch_waveform_data a (.ok s) (.ok e) (.resp 404 c) dec).result.errKind
      = some "no-data-available" ∧
    (fetch_waveform_data a (.ok s) (.ok e) (.resp 204 c') dec').result.errKind
      = some "no-data-available" ∧
    (fetch_waveform_data a (.ok s) (.ok e) (.resp 404 c) dec).result.errMsg
      ≠ (fetch_waveform_data a (.ok s) (.ok e) (.resp 204 c') dec').result.errMsg := by
  refine ⟨rfl, rfl, ?_⟩
  show some (msg404 a) ≠ some (msg204 a)
  simp only [ne_eq, Option.some.injEq]
  exact msg404_ne_msg204 a a

/-- C6: a successful (status 200) response with a zero-byte body yields a
failure of kind `empty-response` and the miniSEED decoder is never invoked
(lines 100-107); any status other than 200, 404 and 204 yields a failure of
kind `http-<status>`, the status code embedded in the kind (lines 91-98). -/
theorem C6_empty_and_http (a : FetchArgs) (s e : ℚ) (dec : DecodeOutcome)
    (status : Nat) (c : List Nat) :
    ((fetch_waveform_data a (.ok s) (.ok e) (.resp 200 []) dec).result.errKind
        = some "empty-response" ∧
     (fetch_waveform_data a (.ok s) (.ok e) (.resp 200 []) dec).decoded
        = false) ∧
    (status ∉ ([200, 404, 204] : List Nat) →
      (fetch_waveform_data a (.ok s) (.ok e) (.resp status c) dec).result.errKind
        = some ("http-" ++ toString status)) := by
  refine ⟨⟨rfl, rfl⟩, ?_⟩
  intro hs
  simp only [List.mem_cons, List.mem_singleton, not_or] at hs
  obtain ⟨h200, h404, h204⟩ := hs
  simp [fetch_waveform_data, afterRequest, classify_response, h200, h404,
    h204, WaveformResult.errKind]

/-- C6 (witness): the theorem applied at the concrete non-success status 500,
yielding kind `http-500`. -/
theorem C6_witness :
    (fetch_waveform_data ⟨"IU", "ANMO", "00", "BHZ", "B"⟩ (.ok 0) (.ok 1)
      (.resp 500 [1]) (.traces [])).result.errKind
      = some ("http-" ++ toString 500) :=
  (C6_empty_and_http ⟨"IU", "ANMO", "00", "BHZ", "B"⟩ 0 1 (.traces []) 500
    [1]).2 (by decide)

/-- C7: a non-empty body whose decode yields a stream of zero traces produces
a failure of kind `no-traces` (lines 118-125); the spec's taxonomy label
`NoTraces` denotes this kind, whose literal string in the code is
`no-traces`. -/
theorem C7_no_traces (a : FetchArgs) (s e : ℚ) (c : List Nat)
    (hc : c.length ≠ 0) :
    (fetch_waveform_data a (.ok s) (.ok e) (.resp 200 c)
      (.traces [])).result =
      .fail "no-traces" "No traces found in miniSEED data" [] [] := by
  simp [fetch_waveform_data, afterRequest, classify_response, hc]

/-- C7 (witness): the theorem applied at a concrete one-byte body. -/
theorem C7_witness :
    (fetch_waveform_data ⟨"IU", "ANMO", "00", "BHZ", "B"⟩ (.ok 0) (.ok 1)
      (.resp 200 [1]) (.traces [])).result =
      .fail "no-traces" "No traces found in miniSEED data" [] [] :=
  C7_no_traces ⟨"IU", "ANMO", "00", "BHZ", "B"⟩ 0 1 [1] (by decide)

/-- C8: when the decoder raises on a malformed, truncated or unsupported
non-empty payload (any exception from `read`, including a record length
exceeding the remaining bytes), the pipeline returns a recoverable failure of
kind `parsing-error` (the spec's label `ParsingError`) whose message carries
the cause, with an empty sample list and empty metadata — never a partial
trace record, and never a crash: the handler at lines 183-190 converts the
exception into this error value. -/
theorem C8_decode_raises (a : FetchArgs) (s e : ℚ) (c : List Nat)
    (hc : c.length ≠ 0) (m : String) :
    (fetch_waveform_data a (.ok s) (.ok e) (.resp 200 c)
      (.raises m)).result =
      .fail "parsing-error" ("Error parsing miniSEED data: " ++ m) [] [] := by
  simp [fetch_waveform_data, afterRequest, classify_response, parseFail, hc]

/-- C8 (witness): the theorem applied at a concrete truncated-record cause. -/
theorem C8_witness :
    (fetch_waveform_data ⟨"IU", "ANMO", "00", "BHZ", "B"⟩ (.ok 0) (.ok 1)
      (.resp 200 [1]) (.raises "unexpected end of file")).result =
      .fail "parsing-error"
        ("Error parsing miniSEED data: " ++ "unexpected end of file") [] [] :=
  C8_decode_raises ⟨"IU", "ANMO", "00", "BHZ", "B"⟩ 0 1 [1] (by decide)
    "unexpected end of file"

/-- C9: when `UTCDateTime` raises on the start text, or on the end text after
a good start, the generic handler at lines 183-190 produces a failure of kind
`parsing-error` whose message carries the underlying cause, and `requests.get`
is never reached (`requested = false` in the outcome). -/
theorem C9_time_text_failure :
    ∀ (a : FetchArgs) (m : String) (pe : ParseOutcome) (net : NetOutcome)
      (dec : DecodeOutcome) (s : ℚ),
      fetch_waveform_data a (.raises m) pe net dec =
        ⟨false, false,
         .fail "parsing-error" ("Error parsing miniSEED data: " ++ m) [] []⟩ ∧
      fetch_waveform_data a (.ok s) (.raises m) net dec =
        ⟨false, false,
         .fail "parsing-error" ("Error parsing miniSEED data: " ++ m) [] []⟩ :=
  fun _ _ _ _ _ _ => ⟨rfl, rfl⟩

/-- C10: every failure result of the pipeline, from whichever stage, carries
an empty `samples` list and an empty `metadata` dict — all eight error returns
share the uniform shape `{success: False, error, message, samples: [],
metadata: {}}`. -/
theorem C10_failure_shape (a : FetchArgs) (ps pe : ParseOutcome)
    (net : NetOutcome) (dec : DecodeOutcome) (k m : String) (s : List Int)
    (md : List (String × String))
    (h : (fetch_waveform_data a ps pe net dec).result = .fail k m s md) :
    s = [] ∧ md = [] := by
  cases ps with
  | raises m' => exact fail_shape_aux h
  | ok _ =>
    cases pe with
    | raises m' => exact fail_shape_aux h
    | ok _ =>
      cases net with
      | timeout => exact fail_shape_aux h
      | netError m' => exact fail_shape_aux h
      | resp status content =>
        simp only [fetch_waveform_data, afterRequest] at h
        unfold classify_response at h
        repeat' split at h
        all_goals first
        | exact fail_shape_aux h
        | (simp only [assemble] at h; exact WaveformResult.noConfusion h)

/-- C10 (witness): the theorem applied at a concrete timeout failure. -/
theorem C10_witness :
    ([] : List Int) = [] ∧ ([] : List (String × String)) = [] :=
  C10_failure_shape ⟨"IU", "ANMO", "00", "BHZ", "B"⟩ (.ok 0) (.ok 1) .timeout
    (.traces []) "timeout" "Request to FDSN service timed out" [] [] rfl
